import Mathlib

/-!
Verification development for the daos_agent refreshable information cache
(src/control/cmd/daos_agent/infocache.go).

The embedding is a shallow functional translation of the Go source:

* machine time (time.Time / time.Duration) is modelled by Nat ticks; the Go
  zero time is modelled by Option.none in lastCached, since time.Now never
  returns the zero time;
* a Go (value, error) return is modelled by the inductive Res: ok carries
  the value, err carries the error message (errors.Wrap prepends a prefix
  string, exactly as pkg/errors renders wrapped errors);
* all per-entry and per-map locks are dropped: the embedding is the
  sequential semantics of each operation, state is threaded explicitly;
* the fetch collaborators (control.GetAttachInfo RPC, the fabric scanner,
  the readiness waiter) are parameters of each operation, bundled in
  Collab; the fabric entry records which fetch closure it was built with
  via fabricFetch (the ordinary entries capture the facade scanner, the
  statically seeded entry captures a constant-returning closure);
* operations that may invoke the hardware scanner additionally return the
  number of scanner invocations they performed, so that claims of the form
  "the scanner is never invoked" are stated as a count of zero;
* the generic keyed cache (lib/cache, not part of the source slice) is
  modelled from the spec as an association list from string keys to a
  tagged entry type, with get-or-create running the staleness check
  (RefreshIfNeeded) on the entry it returns, and forced Refresh skipping
  unknown keys;
* a second, memory-level model of copyGetAttachInfoResp tracks slice
  backing arrays by an allocation tag and the ServiceRanks pointees by a
  heap of PrimaryServiceRank values, so that aliasing between the cached
  master record and a returned copy is expressible.
-/

namespace DaosAgent

/-- Nat ticks standing for time.Time (monotone clock). -/
abbrev Time := Nat

/-- Nat ticks standing for time.Duration. -/
abbrev Duration := Nat

/-- A Go (value, error) pair: exactly one of the two is meaningful. -/
inductive Res (α : Type) where
  | ok : α → Res α
  | err : String → Res α
deriving DecidableEq, Repr

/-- Result of a Go call that can also terminate by a runtime panic
(nil-pointer dereference or index out of range). -/
inductive GoResult (α : Type) where
  | ok : α → GoResult α
  | err : String → GoResult α
  | crash : GoResult α
deriving DecidableEq, Repr

/-- cacheItem: the common per-entry state (locks dropped). lastCached none
models the Go zero time.Time. -/
structure cacheItem where
  lastCached : Option Time
  refreshInterval : Duration
deriving DecidableEq, Repr

/-- cacheItem.isStale, with time.Now passed explicitly: an item with zero
refresh interval is never stale, otherwise it is stale once
lastCached + refreshInterval is strictly before now (time.Time.Before). -/
def cacheItem.isStale (ci : cacheItem) (now : Time) : Bool :=
  if ci.refreshInterval = 0 then false
  else decide (ci.lastCached.getD 0 + ci.refreshInterval < now)

/-- cacheItem.isCached: true once lastCached differs from the zero time. -/
def cacheItem.isCached (ci : cacheItem) : Bool :=
  ci.lastCached.isSome

/-- control.GetAttachInfoReq (the fields infocache.go reads or writes). -/
structure GetAttachInfoReq where
  system : String
  allRanks : Bool
deriving DecidableEq, Repr

/-- control.PrimaryServiceRank contents. -/
structure PrimaryServiceRank where
  rank : Nat
  uri : String
deriving DecidableEq, Repr

/-- control.ClientNetHint, contents level: the provider field and the
environment-variable list (the further value fields are untouched by
infocache.go apart from whole-struct copies). -/
structure ClientNetHint where
  provider : String
  envVars : List String
deriving DecidableEq, Repr

/-- control.GetAttachInfoResp, contents level. The field sys stands for
the remaining plain value fields that *cp = *orig copies wholesale. -/
structure GetAttachInfoResp where
  msRanks : List Nat
  serviceRanks : List PrimaryServiceRank
  clientNetHint : ClientNetHint
  sys : String
deriving DecidableEq, Repr

/-- cachedAttachInfo: the attach-info cache entry. The Go fetch and
rpcClient fields are closures over the facade; the embedding passes the
fetch function to each operation instead of storing it. -/
structure cachedAttachInfo where
  item : cacheItem
  system : String
  lastResponse : Option GetAttachInfoResp
deriving DecidableEq, Repr

/-- newCachedAttachInfo: fresh entry, zero time, no response. -/
def newCachedAttachInfo (refreshInterval : Duration) (system : String) :
    cachedAttachInfo :=
  { item := { lastCached := none, refreshInterval := refreshInterval }
    system := system
    lastResponse := none }

/-- cachedAttachInfo.needsRefresh: not yet cached, or stale. -/
def cachedAttachInfo.needsRefresh (now : Time) (ci : cachedAttachInfo) : Bool :=
  !ci.item.isCached || ci.item.isStale now

/-- cachedAttachInfo.refresh: fetches with the all-ranks request for the
entry system; on fetch error returns the wrapped error leaving the entry
unchanged; on success stores the response and stamps lastCached. -/
def cachedAttachInfo.refresh (fetch : GetAttachInfoReq → Res GetAttachInfoResp)
    (now : Time) (ci : cachedAttachInfo) : cachedAttachInfo × Option String :=
  match fetch { system := ci.system, allRanks := true } with
  | .err e => (ci, some ("refreshing cached attach info failed: " ++ e))
  | .ok resp =>
    ({ ci with
        lastResponse := some resp
        item := { ci.item with lastCached := some now } }, none)

/-- cachedAttachInfo.RefreshIfNeeded: refresh only when needed, reporting
whether a refresh was attempted. -/
def cachedAttachInfo.RefreshIfNeeded (fetch : GetAttachInfoReq → Res GetAttachInfoResp)
    (now : Time) (ci : cachedAttachInfo) : cachedAttachInfo × Bool × Option String :=
  if ci.needsRefresh now then
    let r := ci.refresh fetch now
    (r.1, true, r.2)
  else (ci, false, none)

/-- cachedAttachInfo.Refresh: the unconditional public refresh. -/
def cachedAttachInfo.Refresh (fetch : GetAttachInfoReq → Res GetAttachInfoResp)
    (now : Time) (ci : cachedAttachInfo) : cachedAttachInfo × Option String :=
  ci.refresh fetch now

/-- hardware fabric interface record kept in a NUMA bucket (fields used by
infocache.go: the device class; name and the rest for lookups). -/
structure FabricInterface where
  name : String
  domain : String
  provider : String
  numaNode : Nat
  netDevClass : Nat
deriving DecidableEq, Repr

/-- NUMAFabricMap: NUMA node id to ordered interface records, as an
association list (Go map with unique keys). -/
abbrev NUMAFabricMap := List (Nat × List FabricInterface)

/-- Modelled from the spec: the NUMAFabric wrapper (fabric.go is not part
of the source slice) holds the NUMA map behind a reader/writer lock; the
lock is dropped in the sequential embedding. -/
structure NUMAFabric where
  numaMap : NUMAFabricMap
deriving DecidableEq, Repr

/-- Which fetch closure a fabric entry captured: the facade scanner, or
the constant closure installed by EnableStaticFabricCache. -/
inductive fabricFetch where
  | scan : fabricFetch
  | const : NUMAFabric → fabricFetch
deriving DecidableEq, Repr

/-- cachedFabricInfo: the fabric cache entry. -/
structure cachedFabricInfo where
  item : cacheItem
  fetchKind : fabricFetch
  providers : List String
  devClass : Nat
  lastResults : Option NUMAFabric
deriving DecidableEq, Repr

/-- newCachedFabricInfo: fresh entry, zero time, zero interval. -/
def newCachedFabricInfo (fetchKind : fabricFetch) (devClass : Nat)
    (providers : List String) : cachedFabricInfo :=
  { item := { lastCached := none, refreshInterval := 0 }
    fetchKind := fetchKind
    providers := providers
    devClass := devClass
    lastResults := none }

/-- The collaborator bundle: the attach-info RPC callback (nil-able, as
the Go field is), the fabric scanner, and the readiness wait outcome. -/
structure Collab where
  cb : Option (GetAttachInfoReq → Res GetAttachInfoResp)
  scan : List String → Res (Option NUMAFabric)
  waitReady : Res Unit

/-- Runs the fetch closure of a fabric entry: the scanner counts as one
scanner invocation, the constant closure as none. -/
def runFabricFetch (collab : Collab) (ff : fabricFetch) (provs : List String) :
    Res (Option NUMAFabric) × Nat :=
  match ff with
  | .scan => (collab.scan provs, 1)
  | .const nf => (.ok (some nf), 0)

/-- List splice append(l[:i], l[i+1:]...): removes element i. -/
def spliceRemove {α : Type} (l : List α) (i : Nat) : List α :=
  l.take i ++ l.drop (i + 1)

/-- The inner index loop of cachedFabricInfo.filterDevClass: walks the
bucket, splicing out every record whose device class differs from dc and
stepping the index back after a removal. -/
def filterLoop (dc : Nat) (fis : List FabricInterface) (i : Nat) :
    List FabricInterface :=
  if h : i < fis.length then
    if (fis.get ⟨i, h⟩).netDevClass ≠ dc then
      filterLoop dc (spliceRemove fis i) i
    else
      filterLoop dc fis (i + 1)
  else fis
termination_by fis.length - i
decreasing_by
  · simp only [spliceRemove, List.length_append, List.length_take, List.length_drop]
    omega
  · omega

/-- The outer map loop of cachedFabricInfo.filterDevClass: every bucket is
filtered independently; a bucket left empty is deleted, otherwise the
filtered bucket is stored back. Go map iteration visits each key exactly
once and the loop only deletes or reassigns the key under iteration, so
the whole loop is a filterMap over the buckets. -/
def filterDevClassMap (dc : Nat) (m : NUMAFabricMap) : NUMAFabricMap :=
  m.filterMap (fun e =>
    let f := filterLoop dc e.2 0
    if f.isEmpty then none else some (e.1, f))

/-- cachedFabricInfo.filterDevClass: acquires the locked map for editing
(NUMAFabric.LockedMap fails on a nil NUMAFabric, per the spec
UninitializedReceiver error kind, wrapped by the caller) and prunes
non-matching device classes in place. -/
def cachedFabricInfo.filterDevClass (cfi : cachedFabricInfo)
    (nf : Option NUMAFabric) : Res NUMAFabric :=
  match nf with
  | none => .err "acquiring NUMAFabricMap for editing: nil NUMAFabric"
  | some f => .ok { f with numaMap := filterDevClassMap cfi.devClass f.numaMap }

/-- cachedFabricInfo.refresh: runs the captured fetch, filters the fresh
scan on the configured device class, and only then replaces the cached
results and stamps lastCached; either failure leaves the entry unchanged
and returns the wrapped error. -/
def cachedFabricInfo.refresh (collab : Collab) (now : Time)
    (cfi : cachedFabricInfo) : cachedFabricInfo × Option String × Nat :=
  let fr := runFabricFetch collab cfi.fetchKind cfi.providers
  match fr.1 with
  | .err e => (cfi, some ("refreshing cached fabric info: " ++ e), fr.2)
  | .ok results =>
    match cfi.filterDevClass results with
    | .err e => (cfi, some ("filtering NUMAMap on device class: " ++ e), fr.2)
    | .ok nf =>
      ({ cfi with
          lastResults := some nf
          item := { cfi.item with lastCached := some now } }, none, fr.2)

/-- cachedFabricInfo.RefreshIfNeeded: fetches only when never successfully
cached; staleness and the refresh interval are not consulted at all. -/
def cachedFabricInfo.RefreshIfNeeded (collab : Collab) (now : Time)
    (cfi : cachedFabricInfo) : cachedFabricInfo × (Bool × Option String) × Nat :=
  if !cfi.item.isCached then
    let r := cfi.refresh collab now
    (r.1, (true, r.2.1), r.2.2)
  else (cfi, (false, none), 0)

/-- cachedFabricInfo.Refresh: the unconditional public refresh. -/
def cachedFabricInfo.Refresh (collab : Collab) (now : Time)
    (cfi : cachedFabricInfo) : cachedFabricInfo × Option String × Nat :=
  cfi.refresh collab now

/-- The tagged entry type held by the generic keyed cache. -/
inductive CacheEntry where
  | attach : cachedAttachInfo → CacheEntry
  | fabric : cachedFabricInfo → CacheEntry
deriving DecidableEq, Repr

/-- Association-list lookup over a keyed map. -/
def alookup {κ α : Type} [DecidableEq κ] (k : κ) : List (κ × α) → Option α
  | [] => none
  | e :: rest => if k = e.1 then some e.2 else alookup k rest

/-- Association-list insert-or-replace, preserving the position of an
existing key. -/
def cacheSet {κ α : Type} [DecidableEq κ] (m : List (κ × α)) (k : κ) (v : α) :
    List (κ × α) :=
  match m with
  | [] => [(k, v)]
  | e :: rest => if k = e.1 then (k, v) :: rest else e :: cacheSet rest k v

/-- ItemCache.Keys snapshot. -/
def cacheKeys {κ α : Type} (m : List (κ × α)) : List κ :=
  m.map Prod.fst

/-- ItemCache.Has: non-blocking existence check. -/
def cacheHas {κ α : Type} [DecidableEq κ] (m : List (κ × α)) (k : κ) : Bool :=
  (alookup k m).isSome

/-- The fixed cache key of the attach-info sub-cache. -/
def attachInfoKey : String := "GetAttachInfo"

/-- The fixed cache key of the fabric sub-cache. -/
def fabricKey : String := "NUMAFabric"

/-- Per-system attach-info cache key. -/
def sysAttachInfoKey (sys : String) : String :=
  attachInfoKey ++ "-" ++ sys

/-- Modelled from the spec: build.DefaultSystemName (the build package is
not part of the source slice) is the documented default system name. -/
def DefaultSystemName : String := "daos_server"

/-- Modelled from the spec: telemetry.ClientMetricsEnabledEnv, the
client-metrics-enabled environment variable name (telemetry package not
part of the source slice). -/
def ClientMetricsEnabledEnv : String := "D_CLIENT_METRICS_ENABLE"

/-- Modelled from the spec: telemetry.ClientMetricsRetainEnv, the
client-metrics-retained environment variable name. -/
def ClientMetricsRetainEnv : String := "D_CLIENT_METRICS_RETAIN"

/-- InfoCache facade state: the keyed cache plus the atomic flags and the
configured attach-info refresh interval. The collaborator closures kept in
the Go struct are passed to each operation instead (bundled in Collab). -/
structure InfoCache where
  cache : List (String × CacheEntry)
  fabricCacheDisabled : Bool
  attachInfoCacheDisabled : Bool
  clientTelemetryEnabled : Bool
  clientTelemetryRetain : Bool
  attachInfoRefresh : Duration
  providers : List String
deriving DecidableEq, Repr

/-- InfoCache.addTelemetrySettings: appends the client-metrics-enabled
variable when telemetry is enabled, and additionally the retained variable
when retention is configured. -/
def InfoCache.addTelemetrySettings (c : InfoCache) (resp : GetAttachInfoResp) :
    GetAttachInfoResp :=
  if c.clientTelemetryEnabled then
    let r1 := { resp with clientNetHint :=
      { resp.clientNetHint with envVars :=
          resp.clientNetHint.envVars ++ [ClientMetricsEnabledEnv ++ "=1"] } }
    if c.clientTelemetryRetain then
      { r1 with clientNetHint :=
        { r1.clientNetHint with envVars :=
            r1.clientNetHint.envVars ++ [ClientMetricsRetainEnv ++ "=1"] } }
    else r1
  else resp

/-- InfoCache.getAttachInfo: the fetch wrapper every attach-info path uses;
invokes the callback and augments a successful response with the telemetry
settings before handing it on. -/
def InfoCache.getAttachInfo (collab : Collab) (c : InfoCache)
    (req : GetAttachInfoReq) : Res GetAttachInfoResp :=
  match collab.cb with
  | none => .err "getAttachInfoFn is nil"
  | some cb =>
    match cb req with
    | .err e => .err e
    | .ok resp => .ok (c.addTelemetrySettings resp)

/-- InfoCache.getAttachInfoRemote: the cache-disabled bypass; always asks
for all ranks so a later cache-enabled call can reuse a broad result, and
rejects a response whose primary provider field is empty. -/
def InfoCache.getAttachInfoRemote (collab : Collab) (c : InfoCache)
    (sys : String) : Res GetAttachInfoResp :=
  match InfoCache.getAttachInfo collab c { system := sys, allRanks := true } with
  | .err e => .err ("GetAttachInfo: " ++ e)
  | .ok resp =>
    if resp.clientNetHint.provider = "" then
      .err "GetAttachInfo response contained no provider"
    else .ok resp

/-- copyGetAttachInfoResp, contents level: rebuilds the record with the
rank list, service-rank list and environment-variable list copied; the
allocation-freshness side of the copy is modelled separately at the memory
level below. -/
def copyGetAttachInfoResp (orig : Option GetAttachInfoResp) :
    Option GetAttachInfoResp :=
  match orig with
  | none => none
  | some o =>
    some { o with
            msRanks := o.msRanks
            serviceRanks := o.serviceRanks
            clientNetHint := { o.clientNetHint with envVars := o.clientNetHint.envVars } }

/-- Modelled from the spec: ItemCache.GetOrCreate on the attach-info key
runs RefreshIfNeeded on the entry (existing or freshly created), stores the
updated entry back, and propagates a refresh failure as the wrapped
get-from-cache error; on success the facade returns an independent copy of
the cached master record. -/
def InfoCache.attachEntryResult (collab : Collab) (now : Time) (c : InfoCache)
    (key : String) (cai : cachedAttachInfo) :
    InfoCache × Res (Option GetAttachInfoResp) :=
  let r := cachedAttachInfo.RefreshIfNeeded (InfoCache.getAttachInfo collab c) now cai
  let c2 := { c with cache := cacheSet c.cache key (.attach r.1) }
  match r.2.2 with
  | some e => (c2, .err ("getting attach info from cache: " ++ e))
  | none => (c2, .ok (copyGetAttachInfoResp r.1.lastResponse))

/-- InfoCache.GetAttachInfo: bypasses the cache entirely when the
attach-info sub-cache is disabled; otherwise resolves the per-system key
(falling back to the default system name), obtains or creates the entry,
refreshes it if needed, and returns a copy of the cached record. -/
def InfoCache.GetAttachInfo (collab : Collab) (now : Time) (c : InfoCache)
    (sys : String) : InfoCache × Res (Option GetAttachInfoResp) :=
  if c.attachInfoCacheDisabled then
    (c, match InfoCache.getAttachInfoRemote collab c sys with
        | .err e => .err e
        | .ok r => .ok (some r))
  else
    let sys2 := if sys = "" then DefaultSystemName else sys
    let key := sysAttachInfoKey sys2
    match alookup key c.cache with
    | some (.attach cai) => InfoCache.attachEntryResult collab now c key cai
    | some (.fabric _) => (c, .err "unexpected attach info data type")
    | none =>
      InfoCache.attachEntryResult collab now c key
        (newCachedAttachInfo c.attachInfoRefresh sys2)

/-- Modelled from the spec: ItemCache.GetOrCreate on the fabric key runs
RefreshIfNeeded on the entry, stores it back, and propagates a refresh
failure as the wrapped get-from-cache error; on success the facade hands
out the cached results. -/
def InfoCache.fabricEntryResult (collab : Collab) (now : Time) (c : InfoCache)
    (cfi : cachedFabricInfo) : InfoCache × Res (Option NUMAFabric) × Nat :=
  let r := cachedFabricInfo.RefreshIfNeeded collab now cfi
  let c2 := { c with cache := cacheSet c.cache fabricKey (.fabric r.1) }
  match r.2.1.2 with
  | some e => (c2, .err ("getting fabric scan from cache: " ++ e), r.2.2)
  | none => (c2, .ok r.1.lastResults, r.2.2)

/-- InfoCache.getNUMAFabric: with the fabric sub-cache disabled, waits for
readiness and rescans directly; otherwise serves the cached entry, creating
it (readiness wait, then scan on first refresh) on a miss. The final Nat
counts hardware scanner invocations. -/
def InfoCache.getNUMAFabric (collab : Collab) (now : Time) (c : InfoCache)
    (devClass : Nat) (provs : List String) :
    InfoCache × Res (Option NUMAFabric) × Nat :=
  if c.fabricCacheDisabled then
    match collab.waitReady with
    | .err e => (c, .err e, 0)
    | .ok _ =>
      match collab.scan provs with
      | .err e => (c, .err e, 1)
      | .ok nf => (c, .ok nf, 1)
  else
    match alookup fabricKey c.cache with
    | some (.fabric cfi) => InfoCache.fabricEntryResult collab now c cfi
    | some (.attach _) => (c, .err "unexpected fabric data type", 0)
    | none =>
      match collab.waitReady with
      | .err e => (c, .err ("getting fabric scan from cache: " ++ e), 0)
      | .ok _ =>
        InfoCache.fabricEntryResult collab now c
          (newCachedFabricInfo .scan devClass provs)

/-- FabricIfaceParams (fabric.go, not part of the source slice): the
request record GetFabricDevice receives, nil-able in Go. -/
structure FabricIfaceParams where
  Interface : String
  Domain : String
  Provider : String
  DevClass : Nat
  NUMANode : Nat
deriving DecidableEq, Repr

/-- All interface records of a NUMA map in bucket order. -/
def allInterfaces (m : NUMAFabricMap) : List FabricInterface :=
  m.foldr (fun e acc => e.2 ++ acc) []

/-- Modelled from the spec: NUMAFabric.FindDevice looks one named
interface up by exact match, failing with a not-found condition when it is
absent, and with the uninitialized-receiver error on a nil NUMAFabric. -/
def NUMAFabric.FindDevice (nf : Option NUMAFabric) (params : FabricIfaceParams) :
    Res (List FabricInterface) :=
  match nf with
  | none => .err "nil NUMAFabric"
  | some f =>
    let matching := (allInterfaces f.numaMap).filter
      (fun fi => fi.name == params.Interface)
    if matching.isEmpty then
      .err ("fabric interface " ++ params.Interface ++ " not found")
    else .ok matching

/-- InfoCache.GetFabricDevice: guards a nil receiver, then dereferences
params with no nil check (crash on nil params); with a named interface it
returns element zero of the FindDevice result with no emptiness check
(crash on an empty ok result); otherwise it delegates to the broader
GetDevice selection. FindDevice and GetDevice live outside the source
slice and are taken as parameters. -/
def InfoCache.GetFabricDevice (collab : Collab) (now : Time)
    (findDevice : Option NUMAFabric → FabricIfaceParams → Res (List FabricInterface))
    (getDevice : Option NUMAFabric → FabricIfaceParams → Res FabricInterface)
    (c : Option InfoCache) (params : Option FabricIfaceParams) :
    Option InfoCache × GoResult FabricInterface × Nat :=
  match c with
  | none => (none, .err "InfoCache is nil", 0)
  | some c0 =>
    match params with
    | none => (some c0, .crash, 0)
    | some p =>
      let r := InfoCache.getNUMAFabric collab now c0 p.DevClass [p.Provider]
      match r.2.1 with
      | .err e => (some r.1, .err e, r.2.2)
      | .ok nf =>
        if p.Interface ≠ "" then
          match findDevice nf p with
          | .err e => (some r.1, .err e, r.2.2)
          | .ok [] => (some r.1, .crash, r.2.2)
          | .ok (fi :: _) => (some r.1, .ok fi, r.2.2)
        else
          match getDevice nf p with
          | .err e => (some r.1, .err e, r.2.2)
          | .ok fi => (some r.1, .ok fi, r.2.2)

/-- InfoCache.EnableFabricCache. -/
def InfoCache.EnableFabricCache (c : InfoCache) : InfoCache :=
  { c with fabricCacheDisabled := false }

/-- InfoCache.EnableStaticFabricCache: installs a fabric entry already
marked cached, wrapping the seed in a constant-returning fetch closure,
and enables the fabric sub-cache. -/
def InfoCache.EnableStaticFabricCache (now : Time) (c : InfoCache)
    (nf : NUMAFabric) : InfoCache :=
  let item : cachedFabricInfo :=
    { item := { lastCached := some now, refreshInterval := 0 }
      fetchKind := .const nf
      providers := []
      devClass := 0
      lastResults := some nf }
  InfoCache.EnableFabricCache
    { c with cache := cacheSet c.cache fabricKey (.fabric item) }

/-- Refresh an entry unconditionally, dispatching on its kind; the attach
entry fetches through the facade wrapper, the fabric entry through its
captured closure. -/
def refreshEntry (collab : Collab) (c : InfoCache) (now : Time) :
    CacheEntry → CacheEntry × Option String
  | .attach cai =>
    let r := cachedAttachInfo.refresh (InfoCache.getAttachInfo collab c) now cai
    (.attach r.1, r.2)
  | .fabric cfi =>
    let r := cachedFabricInfo.refresh collab now cfi
    (.fabric r.1, r.2.1)

/-- Modelled from the spec: ItemCache.Refresh re-fetches the named
existing entries unconditionally; a key with no tracked entry is skipped,
not errored; a failing entry stops the walk with its wrapped error. -/
def cacheRefresh (collab : Collab) (fc : InfoCache) (now : Time) :
    List (String × CacheEntry) → List String →
    List (String × CacheEntry) × Option String
  | m, [] => (m, none)
  | m, k :: ks =>
    match alookup k m with
    | none => cacheRefresh collab fc now m ks
    | some e =>
      let r := refreshEntry collab fc now e
      let m2 := cacheSet m k r.1
      match r.2 with
      | some er => (m2, some er)
      | none => cacheRefresh collab fc now m2 ks

/-- The key list the facade-level Refresh submits: the fabric key when the
fabric sub-cache is enabled and the key is tracked, and every tracked key
with the attach-info prefix when the attach-info sub-cache is enabled. -/
def InfoCache.refreshKeys (c : InfoCache) : List String :=
  (if !c.fabricCacheDisabled && cacheHas c.cache fabricKey then [fabricKey] else []) ++
  (if !c.attachInfoCacheDisabled then
    (cacheKeys c.cache).filter (fun k => k.startsWith attachInfoKey)
  else [])

/-- InfoCache.Refresh: fails immediately when both sub-caches are
disabled; otherwise forces a refresh of the tracked keys of the enabled
sub-caches. -/
def InfoCache.Refresh (collab : Collab) (now : Time) (c : InfoCache) :
    InfoCache × Option String :=
  if c.attachInfoCacheDisabled && c.fabricCacheDisabled then
    (c, some "all caches are disabled")
  else
    let r := cacheRefresh collab c now c.cache (InfoCache.refreshKeys c)
    ({ c with cache := r.1 }, r.2)

/-! Memory-level model of copyGetAttachInfoResp. A Go slice is a header
pointing at a backing array; two slice headers with the same backing array
alias. MSlice records the backing array by an allocation tag next to the
element contents. ServiceRanks elements are pointers, modelled as indices
into a heap of PrimaryServiceRank values, so sharing of the pointed-to
structs is expressible. -/

/-- A Go slice header: allocation tag of the backing array plus contents. -/
structure MSlice (α : Type) where
  tag : Nat
  data : List α
deriving DecidableEq, Repr

/-- ClientNetHint at memory level: EnvVars is a nil-able string slice. -/
structure MClientNetHint where
  provider : String
  envVars : Option (MSlice String)
deriving DecidableEq, Repr

/-- GetAttachInfoResp at memory level. The serviceRanks slice holds heap
pointers to PrimaryServiceRank structs. -/
structure MGetAttachInfoResp where
  msRanks : MSlice Nat
  serviceRanks : MSlice Nat
  clientNetHint : MClientNetHint
  sys : String
deriving DecidableEq, Repr

/-- The allocation tags a response reaches through its slice headers. -/
def respTags (r : MGetAttachInfoResp) : List Nat :=
  [r.msRanks.tag, r.serviceRanks.tag] ++
    (match r.clientNetHint.envVars with
     | none => []
     | some s => [s.tag])

/-- copyGetAttachInfoResp at memory level: *cp = *orig copies every field
including the slice headers, then MSRanks, ServiceRanks and a non-nil
EnvVars are re-pointed at freshly allocated backing arrays (tags fresh,
fresh+1, fresh+2) holding element-wise copies. The pointer values inside
serviceRanks are copied as-is. -/
def copyGetAttachInfoRespM (fresh : Nat) (orig : MGetAttachInfoResp) :
    MGetAttachInfoResp :=
  { orig with
      msRanks := { tag := fresh, data := orig.msRanks.data }
      serviceRanks := { tag := fresh + 1, data := orig.serviceRanks.data }
      clientNetHint := { orig.clientNetHint with
        envVars :=
          match orig.clientNetHint.envVars with
          | none => none
          | some s => some { tag := fresh + 2, data := s.data } } }

/-- Writing element i of the backing array with tag t: a slice header is
affected exactly when it points at that backing array. -/
def writeMSlice {α : Type} (t i : Nat) (v : α) (s : MSlice α) : MSlice α :=
  if s.tag = t then { s with data := s.data.set i v } else s

/-- The heap of PrimaryServiceRank structs the rank pointers index. -/
abbrev RankHeap := List PrimaryServiceRank

/-- Mutating the PrimaryServiceRank struct a pointer refers to. -/
def heapWrite (h : RankHeap) (p : Nat) (v : PrimaryServiceRank) : RankHeap :=
  h.set p v

/-- The service-rank structs a response reaches through its pointers. -/
def viewServiceRanks (h : RankHeap) (r : MGetAttachInfoResp) :
    List PrimaryServiceRank :=
  r.serviceRanks.data.map (fun p => h.getD p { rank := 0, uri := "" })

/-! Concrete fixtures used by counterexamples and witnesses. -/

/-- A response whose primary provider field is filled in. -/
def respOk : GetAttachInfoResp :=
  { msRanks := [0, 1]
    serviceRanks := [{ rank := 0, uri := "tcp0" }]
    clientNetHint := { provider := "ofi+tcp", envVars := ["A=1"] }
    sys := "daos_server" }

/-- A response whose primary provider field is empty. -/
def respNoProv : GetAttachInfoResp :=
  { msRanks := [0]
    serviceRanks := []
    clientNetHint := { provider := "", envVars := [] }
    sys := "daos_server" }

/-- A callback that always fails. -/
def cbErr : GetAttachInfoReq → Res GetAttachInfoResp :=
  fun _ => .err "rpc failed"

/-- A callback returning the filled-in response. -/
def cbOk : GetAttachInfoReq → Res GetAttachInfoResp :=
  fun _ => .ok respOk

/-- A callback returning the provider-less response. -/
def cbNoProv : GetAttachInfoReq → Res GetAttachInfoResp :=
  fun _ => .ok respNoProv

/-- A collaborator bundle whose scanner and readiness wait always fail, so
any run that succeeds provably never relied on them. -/
def collabNoScan : Collab :=
  { cb := some cbOk
    scan := fun _ => .err "scanner invoked"
    waitReady := .ok () }

/-- Collaborators whose attach callback yields the provider-less response. -/
def collabNoProv : Collab :=
  { cb := some cbNoProv
    scan := fun _ => .err "scanner invoked"
    waitReady := .ok () }

/-- Collaborators whose attach callback fails. -/
def collabErr : Collab :=
  { cb := some cbErr
    scan := fun _ => .err "scan failed"
    waitReady := .ok () }

/-- A facade state with an empty cache, both sub-caches enabled, telemetry
off. -/
def baseCache : InfoCache :=
  { cache := []
    fabricCacheDisabled := false
    attachInfoCacheDisabled := false
    clientTelemetryEnabled := false
    clientTelemetryRetain := false
    attachInfoRefresh := 0
    providers := [] }

/-- eth0, a verbs-class interface on NUMA node 0 (device class 1). -/
def eth0 : FabricInterface :=
  { name := "eth0", domain := "eth0", provider := "ofi+verbs"
    numaNode := 0, netDevClass := 1 }

/-- eth1, a tcp-class interface on NUMA node 1 (device class 2). -/
def eth1 : FabricInterface :=
  { name := "eth1", domain := "eth1", provider := "ofi+tcp"
    numaNode := 1, netDevClass := 2 }

/-- The statically seeded fabric: NUMA0 holds eth0/verbs, NUMA1 holds
eth1/tcp. -/
def staticNF : NUMAFabric :=
  { numaMap := [(0, [eth0]), (1, [eth1])] }

/-- Request for interface eth1 of device class 2. -/
def eth1Params : FabricIfaceParams :=
  { Interface := "eth1", Domain := "", Provider := "ofi+tcp"
    DevClass := 2, NUMANode := 0 }

/-- A broader-selection fallback that always fails; the named-interface
scenarios never reach it. -/
def getDeviceUnused : Option NUMAFabric → FabricIfaceParams → Res FabricInterface :=
  fun _ _ => .err "GetDevice invoked"

/-- Memory-level master record: one ms-rank, one service-rank pointer to
heap slot 0, one environment variable; backing arrays tagged 0, 1, 2. -/
def mResp0 : MGetAttachInfoResp :=
  { msRanks := { tag := 0, data := [7] }
    serviceRanks := { tag := 1, data := [0] }
    clientNetHint := { provider := "ofi+tcp", envVars := some { tag := 2, data := ["A=1"] } }
    sys := "daos_server" }

/-- The heap backing mResp0: slot 0 holds rank 5. -/
def heap0 : RankHeap := [{ rank := 5, uri := "uri0" }]

/-- baseCache with the attach-info sub-cache disabled. -/
def baseCacheDisabled : InfoCache :=
  { baseCache with attachInfoCacheDisabled := true }

/-- baseCache with both sub-caches disabled. -/
def baseCacheAllDisabled : InfoCache :=
  { baseCache with attachInfoCacheDisabled := true, fabricCacheDisabled := true }

/-- An attach-info entry already cached at tick 5, zero interval, holding
respOk. -/
def caiCached : cachedAttachInfo :=
  { item := { lastCached := some 5, refreshInterval := 0 }
    system := "sysA"
    lastResponse := some respOk }

/-- A facade state whose cache holds the cached sysA attach entry. -/
def cHit : InfoCache :=
  { baseCache with cache := [(sysAttachInfoKey "sysA", .attach caiCached)] }

/-- The facade state after statically seeding the fabric cache at tick 5. -/
def cStatic : InfoCache :=
  InfoCache.EnableStaticFabricCache 5 baseCache staticNF

/-- A FindDevice stand-in returning a fixed non-empty list. -/
def fdConst : Option NUMAFabric → FabricIfaceParams → Res (List FabricInterface) :=
  fun _ _ => .ok [eth1]

/-- A FindDevice stand-in returning ok with an empty list. -/
def fdEmpty : Option NUMAFabric → FabricIfaceParams → Res (List FabricInterface) :=
  fun _ _ => .ok []

/-! Helper lemmas. -/

/-- The device-class predicate of the filter loop. -/
def devClassPred (dc : Nat) : FabricInterface → Bool :=
  fun fi => fi.netDevClass == dc

/-- Unfolding lemma for the key snapshot of a non-empty map. -/
theorem cacheKeys_cons {κ α : Type} (e : κ × α) (rest : List (κ × α)) :
    cacheKeys (e :: rest) = e.1 :: cacheKeys rest := rfl

/-- Unfolding lemma for the filtered map on a non-empty bucket list. -/
theorem filterDevClassMap_cons (dc : Nat) (e : Nat × List FabricInterface)
    (rest : NUMAFabricMap) :
    filterDevClassMap dc (e :: rest) =
      (if (filterLoop dc e.2 0).isEmpty then filterDevClassMap dc rest
       else (e.1, filterLoop dc e.2 0) :: filterDevClassMap dc rest) := by
  by_cases he : (filterLoop dc e.2 0).isEmpty
  · rw [if_pos he]
    exact List.filterMap_cons_none (if_pos he)
  · rw [if_neg he]
    exact List.filterMap_cons_some (if_neg he)

/-- The splice-and-step-back loop equals a functional filter of the not
yet visited suffix, keeping the already visited prefix. -/
theorem filterLoop_eq_aux (dc : Nat) (n : Nat) :
    ∀ (fis : List FabricInterface) (i : Nat), fis.length - i ≤ n →
      filterLoop dc fis i = fis.take i ++ (fis.drop i).filter (devClassPred dc) := by
  induction n with
  | zero =>
    intro fis i hle
    rw [filterLoop]
    have h : ¬ i < fis.length := by omega
    rw [dif_neg h]
    rw [List.take_of_length_le (by omega), List.drop_of_length_le (by omega)]
    simp
  | succ n ih =>
    intro fis i hle
    rw [filterLoop]
    by_cases h : i < fis.length
    · rw [dif_pos h]
      have htake : (fis.take i).length = i := by
        simp [List.length_take]; omega
      by_cases hne : (fis.get ⟨i, h⟩).netDevClass ≠ dc
      · rw [if_pos hne]
        rw [ih (spliceRemove fis i) i
          (by simp only [spliceRemove, List.length_append, List.length_take,
                List.length_drop]; omega)]
        unfold spliceRemove
        rw [List.take_left' htake, List.drop_left' htake]
        rw [List.drop_eq_getElem_cons h, List.filter_cons]
        have hfalse : devClassPred dc fis[i] = false := by
          simp only [devClassPred, beq_eq_false_iff_ne, ne_eq]
          simpa [List.get_eq_getElem] using hne
        simp [hfalse]
      · rw [if_neg hne]
        rw [ih fis (i + 1) (by omega)]
        rw [List.drop_eq_getElem_cons h, List.filter_cons]
        have hp : devClassPred dc fis[i] = true := by
          simp only [devClassPred, beq_iff_eq]
          simpa [List.get_eq_getElem] using not_ne_iff.mp hne
        rw [if_pos hp]
        rw [show (fis[i] :: List.filter (devClassPred dc) (List.drop (i + 1) fis)) =
            [fis[i]] ++ List.filter (devClassPred dc) (List.drop (i + 1) fis) from rfl]
        rw [← List.append_assoc, List.take_concat_get']
    · rw [dif_neg h]
      rw [List.take_of_length_le (by omega), List.drop_of_length_le (by omega)]
      simp

/-- The inner loop, started at index zero, is exactly List.filter on the
configured device class. -/
theorem filterLoop_eq_filter (dc : Nat) (fis : List FabricInterface) :
    filterLoop dc fis 0 = fis.filter (devClassPred dc) := by
  simpa using filterLoop_eq_aux dc fis.length fis 0 (by omega)

/-- A key absent from the key snapshot looks up to none. -/
theorem alookup_eq_none_of_not_mem {κ α : Type} [DecidableEq κ] (k : κ)
    (m : List (κ × α)) (h : k ∉ cacheKeys m) : alookup k m = none := by
  induction m with
  | nil => rfl
  | cons e rest ih =>
    rw [cacheKeys_cons, List.mem_cons] at h
    push_neg at h
    rw [alookup, if_neg h.1]
    exact ih h.2

/-- Filtering the NUMA map never introduces a key. -/
theorem keys_filterDevClassMap_subset (dc : Nat) (m : NUMAFabricMap) (k : Nat)
    (h : k ∈ cacheKeys (filterDevClassMap dc m)) : k ∈ cacheKeys m := by
  induction m with
  | nil => simp [filterDevClassMap, cacheKeys] at h
  | cons e rest ih =>
    rw [filterDevClassMap_cons] at h
    rw [cacheKeys_cons, List.mem_cons]
    by_cases he : (filterLoop dc e.2 0).isEmpty
    · rw [if_pos he] at h
      exact Or.inr (ih h)
    · rw [if_neg he, cacheKeys_cons, List.mem_cons] at h
      rcases h with h | h
      · exact Or.inl h
      · exact Or.inr (ih h)

/-- Lookup in the filtered map, for a map with distinct NUMA keys: the
bucket is the filtered original bucket, deleted when the filter empties
it. -/
theorem alookup_filterDevClassMap (dc : Nat) (m : NUMAFabricMap)
    (hnd : (cacheKeys m).Nodup) (numa : Nat) :
    alookup numa (filterDevClassMap dc m) =
      match alookup numa m with
      | none => none
      | some fis =>
        if (fis.filter (devClassPred dc)).isEmpty then none
        else some (fis.filter (devClassPred dc)) := by
  induction m with
  | nil => rfl
  | cons e rest ih =>
    rw [cacheKeys_cons, List.nodup_cons] at hnd
    obtain ⟨hnd1, hnd2⟩ := hnd
    rw [filterDevClassMap_cons]
    by_cases hk : numa = e.1
    · by_cases he : (filterLoop dc e.2 0).isEmpty
      · rw [if_pos he]
        have habs : alookup numa (filterDevClassMap dc rest) = none := by
          apply alookup_eq_none_of_not_mem
          intro hmem
          exact hnd1 (hk ▸ keys_filterDevClassMap_subset dc rest numa hmem)
        rw [habs, alookup, if_pos hk]
        rw [filterLoop_eq_filter] at he
        simp [he]
      · rw [if_neg he, alookup, alookup]
        simp only [hk, if_true]
        rw [filterLoop_eq_filter] at he ⊢
        simp [he]
    · by_cases he : (filterLoop dc e.2 0).isEmpty
      · rw [if_pos he, ih hnd2, alookup, if_neg hk]
      · rw [if_neg he, alookup, alookup]
        simp only [hk, if_false]
        exact ih hnd2

/-- Re-storing the value a key already holds leaves the map unchanged. -/
theorem cacheSet_self {κ α : Type} [DecidableEq κ] (m : List (κ × α)) (k : κ)
    (v : α) (h : alookup k m = some v) : cacheSet m k v = m := by
  induction m with
  | nil => simp [alookup] at h
  | cons e rest ih =>
    rw [alookup] at h
    rw [cacheSet]
    by_cases hk : k = e.1
    · simp only [hk, if_true] at h ⊢
      obtain ⟨k1, v1⟩ := e
      simp at h hk
      simp [hk, h]
    · simp only [hk, if_false] at h ⊢
      rw [ih h]

/-- A write to a different backing array leaves a slice untouched. -/
theorem writeMSlice_ne {α : Type} (t i : Nat) (v : α) (s : MSlice α)
    (h : s.tag ≠ t) : writeMSlice t i v s = s := by
  simp [writeMSlice, h]

/-- Telemetry augmentation never changes the provider field. -/
theorem addTelemetrySettings_provider (c : InfoCache) (resp : GetAttachInfoResp) :
    (c.addTelemetrySettings resp).clientNetHint.provider =
      resp.clientNetHint.provider := by
  unfold InfoCache.addTelemetrySettings
  by_cases h1 : c.clientTelemetryEnabled <;> by_cases h2 : c.clientTelemetryRetain <;>
    simp [h1, h2]

/-- Telemetry augmentation appends exactly the enabled flag, then the
retain flag when retention is configured, after the existing variables. -/
theorem addTelemetrySettings_envVars (c : InfoCache) (resp : GetAttachInfoResp) :
    (c.addTelemetrySettings resp).clientNetHint.envVars =
      resp.clientNetHint.envVars ++
        (if c.clientTelemetryEnabled then
          (ClientMetricsEnabledEnv ++ "=1") ::
            (if c.clientTelemetryRetain then [ClientMetricsRetainEnv ++ "=1"] else [])
        else []) := by
  unfold InfoCache.addTelemetrySettings
  by_cases h1 : c.clientTelemetryEnabled <;> by_cases h2 : c.clientTelemetryRetain <;>
    simp [h1, h2]

/-- The bypass fetch rejects a fetched response whose provider is empty. -/
theorem getAttachInfoRemote_no_provider (collab : Collab) (c : InfoCache)
    (sys : String) (cb : GetAttachInfoReq → Res GetAttachInfoResp)
    (resp : GetAttachInfoResp) (hcb : collab.cb = some cb)
    (hresp : cb { system := sys, allRanks := true } = .ok resp)
    (hprov : resp.clientNetHint.provider = "") :
    InfoCache.getAttachInfoRemote collab c sys =
      .err "GetAttachInfo response contained no provider" := by
  unfold InfoCache.getAttachInfoRemote InfoCache.getAttachInfo
  rw [hcb]
  simp only [hresp]
  rw [if_pos ((addTelemetrySettings_provider c resp).trans hprov)]

/-! Claim theorems. -/

/-- C3: a failing Refresh, for both entry kinds and for both fabric
failure modes (fetch error, filtering error), leaves the cached content
and the last-fetch timestamp unchanged and returns the wrapped underlying
error. -/
theorem C3_failure_preserves_state :
    (∀ (fetch : GetAttachInfoReq → Res GetAttachInfoResp) (now : Time)
       (ci : cachedAttachInfo) (e : String),
       fetch { system := ci.system, allRanks := true } = .err e →
       cachedAttachInfo.refresh fetch now ci =
         (ci, some ("refreshing cached attach info failed: " ++ e))) ∧
    (∀ (collab : Collab) (now : Time) (cfi : cachedFabricInfo) (e : String),
       (runFabricFetch collab cfi.fetchKind cfi.providers).1 = .err e →
       cachedFabricInfo.refresh collab now cfi =
         (cfi, some ("refreshing cached fabric info: " ++ e),
          (runFabricFetch collab cfi.fetchKind cfi.providers).2)) ∧
    (∀ (collab : Collab) (now : Time) (cfi : cachedFabricInfo)
       (results : Option NUMAFabric) (e : String),
       (runFabricFetch collab cfi.fetchKind cfi.providers).1 = .ok results →
       cfi.filterDevClass results = .err e →
       cachedFabricInfo.refresh collab now cfi =
         (cfi, some ("filtering NUMAMap on device class: " ++ e),
          (runFabricFetch collab cfi.fetchKind cfi.providers).2)) := by
  refine ⟨?_, ?_, ?_⟩
  · intro fetch now ci e hf
    simp [cachedAttachInfo.refresh, hf]
  · intro collab now cfi e hf
    simp [cachedFabricInfo.refresh, hf]
  · intro collab now cfi results e hf hfil
    simp [cachedFabricInfo.refresh, hf, hfil]

/-- C3 witness: a concrete failing attach fetch returns the wrapped error
and leaves the fresh entry untouched. -/
theorem C3_witness :
    cachedAttachInfo.refresh cbErr 5 (newCachedAttachInfo 0 "sysA") =
      (newCachedAttachInfo 0 "sysA",
       some ("refreshing cached attach info failed: " ++ "rpc failed")) :=
  C3_failure_preserves_state.1 cbErr 5 (newCachedAttachInfo 0 "sysA") "rpc failed" rfl

/-- C4 counterexample: at the boundary instant now = lastCached + interval
the code reports the entry fresh (isStale is false), while the claim
declares every instant not strictly before the boundary stale. -/
theorem C4_counterexample :
    cacheItem.isStale { lastCached := some 10, refreshInterval := 5 } 15 = false ∧
    ¬((5 : Nat) = 0 ∨ (15 : Time) < 10 + 5) := by
  exact ⟨rfl, by decide⟩

/-- C4 amended: an attach-info entry is fresh exactly when its refresh
interval is zero or now is at or before last-fetch-time plus the interval
(the boundary instant counts as fresh); with interval zero RefreshIfNeeded
returns false and no error once cached, and once the interval has strictly
elapsed RefreshIfNeeded reports true and performs the fetch. -/
theorem C4_staleness_amended :
    ∀ (ci : cacheItem) (now : Time),
      (ci.isStale now = false ↔
        (ci.refreshInterval = 0 ∨ now ≤ ci.lastCached.getD 0 + ci.refreshInterval)) ∧
      (∀ (fetch : GetAttachInfoReq → Res GetAttachInfoResp) (sys : String)
         (resp : Option GetAttachInfoResp),
         ci.refreshInterval = 0 → ci.lastCached.isSome = true →
         cachedAttachInfo.RefreshIfNeeded fetch now
             { item := ci, system := sys, lastResponse := resp } =
           ({ item := ci, system := sys, lastResponse := resp }, false, none)) ∧
      (∀ (fetch : GetAttachInfoReq → Res GetAttachInfoResp) (sys : String)
         (resp : Option GetAttachInfoResp),
         ci.refreshInterval ≠ 0 → ci.lastCached.isSome = true →
         ci.lastCached.getD 0 + ci.refreshInterval < now →
         cachedAttachInfo.RefreshIfNeeded fetch now
             { item := ci, system := sys, lastResponse := resp } =
           (let r := cachedAttachInfo.refresh fetch now
              { item := ci, system := sys, lastResponse := resp }
            (r.1, true, r.2))) := by
  intro ci now
  refine ⟨?_, ?_, ?_⟩
  · by_cases h0 : ci.refreshInterval = 0
    · simp [cacheItem.isStale, h0]
    · simp [cacheItem.isStale, h0]
  · intro fetch sys resp h0 hc
    have hnr : cachedAttachInfo.needsRefresh now
        { item := ci, system := sys, lastResponse := resp } = false := by
      simp [cachedAttachInfo.needsRefresh, cacheItem.isCached, cacheItem.isStale, h0, hc]
    simp [cachedAttachInfo.RefreshIfNeeded, hnr]
  · intro fetch sys resp h0 hc hlt
    have hnr : cachedAttachInfo.needsRefresh now
        { item := ci, system := sys, lastResponse := resp } = true := by
      simp [cachedAttachInfo.needsRefresh, cacheItem.isCached, cacheItem.isStale, h0, hc]
      exact hlt
    simp [cachedAttachInfo.RefreshIfNeeded, hnr]

/-- C4 witness: with interval zero a cached entry is never refreshed, and
with interval 5 at tick 99 the stale entry is re-fetched. -/
theorem C4_witness :
    (cachedAttachInfo.RefreshIfNeeded cbOk 99
        { item := { lastCached := some 10, refreshInterval := 0 },
          system := "s", lastResponse := none } =
      ({ item := { lastCached := some 10, refreshInterval := 0 },
         system := "s", lastResponse := none }, false, none)) ∧
    (cachedAttachInfo.RefreshIfNeeded cbOk 99
        { item := { lastCached := some 10, refreshInterval := 5 },
          system := "s", lastResponse := none } =
      ({ item := { lastCached := some 99, refreshInterval := 5 },
         system := "s", lastResponse := some respOk }, true, none)) :=
  ⟨(C4_staleness_amended { lastCached := some 10, refreshInterval := 0 } 99).2.1
      cbOk "s" none rfl rfl,
   ((C4_staleness_amended { lastCached := some 10, refreshInterval := 5 } 99).2.2
      cbOk "s" none (by decide) rfl (by decide)).trans rfl⟩

/-- C1 counterexample: on the cached refresh path a fetched response whose
primary provider field is empty is not rejected: the refresh succeeds
(returns no error) and mutates both the cached content and the timestamp,
contradicting the claim for the cached path. -/
theorem C1_counterexample :
    respNoProv.clientNetHint.provider = "" ∧
    cachedAttachInfo.refresh (InfoCache.getAttachInfo collabNoProv baseCache) 5
        (newCachedAttachInfo 0 "sysA") =
      ({ item := { lastCached := some 5, refreshInterval := 0 },
         system := "sysA", lastResponse := some respNoProv }, none) :=
  ⟨rfl, rfl⟩

/-- C1 amended: only the cache-disabled bypass path validates the primary
provider field: there, an empty provider yields an error and no state is
touched; the cached refresh path stores any successfully fetched response,
empty provider included, and stamps the timestamp. -/
theorem C1_validation_bypass_only :
    (∀ (collab : Collab) (c : InfoCache) (sys : String)
       (cb : GetAttachInfoReq → Res GetAttachInfoResp) (resp : GetAttachInfoResp),
       collab.cb = some cb →
       cb { system := sys, allRanks := true } = .ok resp →
       resp.clientNetHint.provider = "" →
       InfoCache.getAttachInfoRemote collab c sys =
         .err "GetAttachInfo response contained no provider") ∧
    (∀ (collab : Collab) (now : Time) (c : InfoCache) (sys : String)
       (cb : GetAttachInfoReq → Res GetAttachInfoResp) (resp : GetAttachInfoResp),
       c.attachInfoCacheDisabled = true →
       collab.cb = some cb →
       cb { system := sys, allRanks := true } = .ok resp →
       resp.clientNetHint.provider = "" →
       InfoCache.GetAttachInfo collab now c sys =
         (c, .err "GetAttachInfo response contained no provider")) ∧
    (∀ (fetch : GetAttachInfoReq → Res GetAttachInfoResp) (now : Time)
       (ci : cachedAttachInfo) (resp : GetAttachInfoResp),
       fetch { system := ci.system, allRanks := true } = .ok resp →
       cachedAttachInfo.refresh fetch now ci =
         ({ ci with
             lastResponse := some resp
             item := { ci.item with lastCached := some now } }, none)) := by
  refine ⟨?_, ?_, ?_⟩
  · intro collab c sys cb resp hcb hresp hprov
    exact getAttachInfoRemote_no_provider collab c sys cb resp hcb hresp hprov
  · intro collab now c sys cb resp hdis hcb hresp hprov
    simp only [InfoCache.GetAttachInfo, hdis, if_true]
    rw [getAttachInfoRemote_no_provider collab c sys cb resp hcb hresp hprov]
  · intro fetch now ci resp hresp
    simp [cachedAttachInfo.refresh, hresp]

/-- C5: a successful fabric filtering pass keeps, per NUMA bucket and in
their original order, exactly the interface records whose device class
equals the configured class, deletes every bucket the filtering empties,
and a non-nil fetched fabric filters to exactly that map. -/
theorem C5_filter_correctness :
    ∀ (cfi : cachedFabricInfo) (m : NUMAFabricMap), (cacheKeys m).Nodup →
      (∀ numa : Nat,
        alookup numa (filterDevClassMap cfi.devClass m) =
          match alookup numa m with
          | none => none
          | some fis =>
            if (fis.filter (devClassPred cfi.devClass)).isEmpty then none
            else some (fis.filter (devClassPred cfi.devClass))) ∧
      (∀ (numa : Nat) (fis : List FabricInterface) (fi : FabricInterface),
        alookup numa (filterDevClassMap cfi.devClass m) = some fis →
        fi ∈ fis → fi.netDevClass = cfi.devClass) ∧
      (∀ nf : NUMAFabric, cfi.filterDevClass (some nf) =
        .ok { nf with numaMap := filterDevClassMap cfi.devClass nf.numaMap }) := by
  intro cfi m hnd
  refine ⟨fun numa => alookup_filterDevClassMap cfi.devClass m hnd numa, ?_, fun _ => rfl⟩
  intro numa fis fi hlk hm
  have hchar := alookup_filterDevClassMap cfi.devClass m hnd numa
  rw [hlk] at hchar
  cases halk : alookup numa m with
  | none =>
    rw [halk] at hchar
    simp at hchar
  | some fis0 =>
    rw [halk] at hchar
    simp only [] at hchar
    by_cases hie : (fis0.filter (devClassPred cfi.devClass)).isEmpty
    · rw [if_pos hie] at hchar
      simp at hchar
    · rw [if_neg hie] at hchar
      have hfis : fis = fis0.filter (devClassPred cfi.devClass) :=
        Option.some.inj hchar
      rw [hfis] at hm
      have := List.of_mem_filter hm
      simpa [devClassPred] using this

/-- C5 witness: filtering the mixed seeded map on device class 2 deletes
the NUMA 0 bucket (its only record has class 1) and keeps eth1 in the
NUMA 1 bucket. -/
theorem C5_witness :
    (alookup 0 (filterDevClassMap (newCachedFabricInfo .scan 2 []).devClass
        [(0, [eth0]), (1, [eth1])]) = none) ∧
    (alookup 1 (filterDevClassMap (newCachedFabricInfo .scan 2 []).devClass
        [(0, [eth0]), (1, [eth1])]) = some [eth1]) :=
  ⟨((C5_filter_correctness (newCachedFabricInfo .scan 2 [])
      [(0, [eth0]), (1, [eth1])] (by decide)).1 0).trans (by decide),
   ((C5_filter_correctness (newCachedFabricInfo .scan 2 [])
      [(0, [eth0]), (1, [eth1])] (by decide)).1 1).trans (by decide)⟩

/-- C7: with the attach-info sub-cache disabled, GetAttachInfo performs a
direct uncached remote fetch, leaving the facade state untouched; the
request handed to the callback is exactly the all-ranks request for the
given system, independent of any caller scope. -/
theorem C7_bypass_forces_all_ranks :
    ∀ (collab : Collab) (now : Time) (c : InfoCache) (sys : String),
      c.attachInfoCacheDisabled = true →
      (InfoCache.GetAttachInfo collab now c sys =
        (c, match InfoCache.getAttachInfoRemote collab c sys with
            | .err e => .err e
            | .ok r => .ok (some r))) ∧
      (InfoCache.getAttachInfoRemote collab c sys =
        (match collab.cb with
         | none => .err ("GetAttachInfo: " ++ "getAttachInfoFn is nil")
         | some cb =>
           match cb { system := sys, allRanks := true } with
           | .err e => .err ("GetAttachInfo: " ++ e)
           | .ok resp =>
             if (c.addTelemetrySettings resp).clientNetHint.provider = "" then
               .err "GetAttachInfo response contained no provider"
             else .ok (c.addTelemetrySettings resp))) := by
  intro collab now c sys hdis
  constructor
  · simp [InfoCache.GetAttachInfo, hdis]
  · unfold InfoCache.getAttachInfoRemote InfoCache.getAttachInfo
    cases hcb : collab.cb with
    | none => rfl
    | some cb =>
      cases hreq : cb { system := sys, allRanks := true } with
      | err e => simp [hreq]
      | ok resp => simp [hreq]

/-- C7 witness: the disabled-cache state serves sysA straight from the
callback response with all ranks requested, state unchanged. -/
theorem C7_witness :
    InfoCache.GetAttachInfo collabNoScan 5 baseCacheDisabled "sysA" =
      (baseCacheDisabled, .ok (some respOk)) :=
  ((C7_bypass_forces_all_ranks collabNoScan 5 baseCacheDisabled "sysA" rfl).1).trans rfl

/-- C9: telemetry augmentation happens exactly once, on the master record,
immediately after each successful remote fetch (the wrapper returns the
augmented response, appending the enabled flag and, when retention is
configured, the retain flag); the read path of a fresh cached entry
returns a copy and leaves the facade state, hence the cached master and
its environment variables, completely unchanged, so repeated cache hits
are idempotent. -/
theorem C9_telemetry_once :
    (∀ (collab : Collab) (c : InfoCache) (req : GetAttachInfoReq)
       (cb : GetAttachInfoReq → Res GetAttachInfoResp) (resp : GetAttachInfoResp),
       collab.cb = some cb → cb req = .ok resp →
       InfoCache.getAttachInfo collab c req = .ok (c.addTelemetrySettings resp)) ∧
    (∀ (c : InfoCache) (resp : GetAttachInfoResp),
       (c.addTelemetrySettings resp).clientNetHint.envVars =
         resp.clientNetHint.envVars ++
           (if c.clientTelemetryEnabled then
             (ClientMetricsEnabledEnv ++ "=1") ::
               (if c.clientTelemetryRetain then [ClientMetricsRetainEnv ++ "=1"] else [])
           else [])) ∧
    (∀ (collab : Collab) (now : Time) (c : InfoCache) (sys : String)
       (cai : cachedAttachInfo),
       c.attachInfoCacheDisabled = false → sys ≠ "" →
       alookup (sysAttachInfoKey sys) c.cache = some (.attach cai) →
       cai.item.isCached = true → cai.item.isStale now = false →
       InfoCache.GetAttachInfo collab now c sys =
         (c, .ok (copyGetAttachInfoResp cai.lastResponse))) := by
  refine ⟨?_, addTelemetrySettings_envVars, ?_⟩
  · intro collab c req cb resp hcb hreq
    unfold InfoCache.getAttachInfo
    rw [hcb]
    simp [hreq]
  · intro collab now c sys cai hdis hsys halk hcached hfresh
    have hnr : cai.needsRefresh now = false := by
      simp [cachedAttachInfo.needsRefresh, hcached, hfresh]
    have hrin : cachedAttachInfo.RefreshIfNeeded
        (InfoCache.getAttachInfo collab c) now cai = (cai, false, none) := by
      simp [cachedAttachInfo.RefreshIfNeeded, hnr]
    have hset : cacheSet c.cache (sysAttachInfoKey sys) (CacheEntry.attach cai) =
        c.cache := cacheSet_self c.cache (sysAttachInfoKey sys) _ halk
    simp only [InfoCache.GetAttachInfo, hdis, Bool.false_eq_true, if_false]
    rw [if_neg hsys, halk]
    simp only [InfoCache.attachEntryResult, hrin, hset]

/-- C9 witness: a cache hit on the fresh sysA entry returns a copy of the
master and leaves the state, master record included, unchanged. -/
theorem C9_witness :
    InfoCache.GetAttachInfo collabErr 100 cHit "sysA" = (cHit, .ok (some respOk)) :=
  ((C9_telemetry_once.2.2 collabErr 100 cHit "sysA" caiCached rfl (by decide)
      rfl rfl rfl)).trans rfl

/-- C1 witness: the bypass path rejects the provider-less response while
the cached refresh path accepts and stores it. -/
theorem C1_witness :
    (InfoCache.GetAttachInfo collabNoProv 5 baseCacheDisabled "sysA" =
      (baseCacheDisabled, .err "GetAttachInfo response contained no provider")) ∧
    (cachedAttachInfo.refresh cbNoProv 5 (newCachedAttachInfo 0 "sysA") =
      ({ item := { lastCached := some 5, refreshInterval := 0 },
         system := "sysA", lastResponse := some respNoProv }, none)) :=
  ⟨(C1_validation_bypass_only.2.1 collabNoProv 5 baseCacheDisabled "sysA"
      cbNoProv respNoProv rfl rfl rfl rfl),
   (C1_validation_bypass_only.2.2 cbNoProv 5 (newCachedAttachInfo 0 "sysA")
      respNoProv rfl).trans rfl⟩

/-- C6: a fabric entry that is cached is never refreshed by
RefreshIfNeeded, whatever the elapsed time or configured interval, and no
scanner invocation happens; the statically seeded facade holds a
pre-cached constant-fetch entry, and a GetFabricDevice lookup for the
seeded interface eth1 returns it with zero scanner invocations and the
state unchanged. -/
theorem C6_static_fabric_never_rescanned :
    (∀ (collab : Collab) (now : Time) (cfi : cachedFabricInfo),
       cfi.item.isCached = true →
       cachedFabricInfo.RefreshIfNeeded collab now cfi = (cfi, (false, none), 0)) ∧
    (cStatic = { baseCache with cache := [(fabricKey, CacheEntry.fabric
        { item := { lastCached := some 5, refreshInterval := 0 }
          fetchKind := .const staticNF
          providers := []
          devClass := 0
          lastResults := some staticNF })] }) ∧
    (InfoCache.GetFabricDevice collabNoScan 9 NUMAFabric.FindDevice getDeviceUnused
        (some cStatic) (some eth1Params) = (some cStatic, .ok eth1, 0)) := by
  refine ⟨?_, rfl, ?_⟩
  · intro collab now cfi hc
    simp [cachedFabricInfo.RefreshIfNeeded, hc]
  · rfl

/-- C6 witness: even with a nonzero interval long elapsed, a cached fabric
entry is served untouched with no fetch. -/
theorem C6_witness :
    cachedFabricInfo.RefreshIfNeeded collabErr 999
        { item := { lastCached := some 5, refreshInterval := 3 }
          fetchKind := .scan
          providers := []
          devClass := 2
          lastResults := some staticNF } =
      ({ item := { lastCached := some 5, refreshInterval := 3 }
         fetchKind := .scan
         providers := []
         devClass := 2
         lastResults := some staticNF }, (false, none), 0) :=
  C6_static_fabric_never_rescanned.1 collabErr 999 _ rfl

/-- C8: the facade Refresh fails immediately exactly when both sub-caches
are disabled; otherwise it submits exactly the tracked fabric key (when
the fabric sub-cache is enabled) and the tracked attach-info-prefixed keys
(when the attach-info sub-cache is enabled) to the keyed-cache refresh,
which skips keys with no tracked entry instead of failing. -/
theorem C8_refresh_facade :
    ∀ (collab : Collab) (now : Time) (c : InfoCache),
      ((c.attachInfoCacheDisabled && c.fabricCacheDisabled) = true →
        InfoCache.Refresh collab now c = (c, some "all caches are disabled")) ∧
      ((c.attachInfoCacheDisabled && c.fabricCacheDisabled) = false →
        InfoCache.Refresh collab now c =
          (let r := cacheRefresh collab c now c.cache (InfoCache.refreshKeys c)
           ({ c with cache := r.1 }, r.2))) ∧
      (∀ k : String, k ∈ InfoCache.refreshKeys c ↔
        ((k = fabricKey ∧ c.fabricCacheDisabled = false ∧
            cacheHas c.cache fabricKey = true) ∨
         (c.attachInfoCacheDisabled = false ∧ k ∈ cacheKeys c.cache ∧
            k.startsWith attachInfoKey = true))) ∧
      (∀ (m : List (String × CacheEntry)) (k : String) (ks : List String),
        alookup k m = none →
        cacheRefresh collab c now m (k :: ks) = cacheRefresh collab c now m ks) := by
  intro collab now c
  refine ⟨?_, ?_, ?_, ?_⟩
  · intro h
    simp [InfoCache.Refresh, h]
  · intro h
    simp [InfoCache.Refresh, h]
  · intro k
    unfold InfoCache.refreshKeys
    by_cases hf : c.fabricCacheDisabled = true <;>
      by_cases hh : cacheHas c.cache fabricKey = true <;>
      by_cases ha : c.attachInfoCacheDisabled = true <;>
      simp [hf, hh, ha, List.mem_filter]
  · intro m k ks halk
    simp only [cacheRefresh, halk]

/-- C8 witness: both sub-caches disabled fails fast with the dedicated
error and an untouched state, and an untracked key is skipped by the
keyed-cache refresh. -/
theorem C8_witness :
    (InfoCache.Refresh collabErr 0 baseCacheAllDisabled =
      (baseCacheAllDisabled, some "all caches are disabled")) ∧
    (cacheRefresh collabErr baseCache 0 [] ["unknown-key"] =
      cacheRefresh collabErr baseCache 0 [] []) :=
  ⟨(C8_refresh_facade collabErr 0 baseCacheAllDisabled).1 rfl,
   (C8_refresh_facade collabErr 0 baseCache).2.2.2 [] "unknown-key" [] rfl⟩

/-- C10: GetFabricDevice answers a nil receiver with an error, but crashes
on a nil params argument (dereferenced with no nil check); with a named
interface it crashes whenever FindDevice returns ok with an empty list
(element zero taken with no emptiness check); and it is crash-free for
non-nil params exactly under the precondition that FindDevice never
returns ok with an empty list. -/
theorem C10_get_fabric_device_safety :
    ∀ (collab : Collab) (now : Time)
      (findDevice : Option NUMAFabric → FabricIfaceParams → Res (List FabricInterface))
      (getDevice : Option NUMAFabric → FabricIfaceParams → Res FabricInterface),
      (∀ params : Option FabricIfaceParams,
        InfoCache.GetFabricDevice collab now findDevice getDevice none params =
          (none, .err "InfoCache is nil", 0)) ∧
      (∀ c : InfoCache,
        InfoCache.GetFabricDevice collab now findDevice getDevice (some c) none =
          (some c, .crash, 0)) ∧
      (∀ (c : InfoCache) (p : FabricIfaceParams) (nf : Option NUMAFabric),
        p.Interface ≠ "" →
        (InfoCache.getNUMAFabric collab now c p.DevClass [p.Provider]).2.1 = .ok nf →
        findDevice nf p = .ok [] →
        (InfoCache.GetFabricDevice collab now findDevice getDevice
            (some c) (some p)).2.1 = .crash) ∧
      (∀ (c : InfoCache) (p : FabricIfaceParams),
        (∀ (nf : Option NUMAFabric) (l : List FabricInterface),
          findDevice nf p = .ok l → l ≠ []) →
        (InfoCache.GetFabricDevice collab now findDevice getDevice
            (some c) (some p)).2.1 ≠ .crash) := by
  intro collab now findDevice getDevice
  refine ⟨fun params => rfl, fun c => rfl, ?_, ?_⟩
  · intro c p nf hiface hnf hfd
    unfold InfoCache.GetFabricDevice
    simp only [hnf]
    simp [hiface, hfd]
  · intro c p hfd
    unfold InfoCache.GetFabricDevice
    cases hnf : (InfoCache.getNUMAFabric collab now c p.DevClass [p.Provider]).2.1 with
    | err e => simp [hnf]
    | ok nf =>
      by_cases hif : p.Interface = ""
      · cases hgd : getDevice nf p with
        | err e => simp [hnf, hif, hgd]
        | ok fi => simp [hnf, hif, hgd]
      · cases hl : findDevice nf p with
        | err e => simp [hnf, hif, hl]
        | ok l =>
          cases l with
          | nil => exact absurd rfl (hfd nf [] hl)
          | cons fi rest => simp [hnf, hif, hl]

/-- C10 witness: the nil-receiver error, the nil-params crash, the
empty-FindDevice crash, and crash-freedom under the non-empty
precondition, each at concrete inputs. -/
theorem C10_witness :
    (InfoCache.GetFabricDevice collabNoScan 0 fdConst getDeviceUnused none
        (some eth1Params) = (none, .err "InfoCache is nil", 0)) ∧
    (InfoCache.GetFabricDevice collabNoScan 0 fdConst getDeviceUnused
        (some cStatic) none = (some cStatic, .crash, 0)) ∧
    ((InfoCache.GetFabricDevice collabNoScan 0 fdEmpty getDeviceUnused
        (some cStatic) (some eth1Params)).2.1 = .crash) ∧
    ((InfoCache.GetFabricDevice collabNoScan 0 fdConst getDeviceUnused
        (some cStatic) (some eth1Params)).2.1 ≠ .crash) :=
  ⟨(C10_get_fabric_device_safety collabNoScan 0 fdConst getDeviceUnused).1
      (some eth1Params),
   (C10_get_fabric_device_safety collabNoScan 0 fdConst getDeviceUnused).2.1 cStatic,
   (C10_get_fabric_device_safety collabNoScan 0 fdEmpty getDeviceUnused).2.2.1
      cStatic eth1Params (some staticNF) (by decide) rfl rfl,
   (C10_get_fabric_device_safety collabNoScan 0 fdConst getDeviceUnused).2.2.2
      cStatic eth1Params (by intro nf l h; cases h; simp)⟩

/-- C2 counterexample: the returned copy is not storage-independent; the
pointer values in its ServiceRanks slice are the ones of the cached
master, so mutating the service-rank struct reachable from the copy
changes what the cached master record exposes. -/
theorem C2_counterexample :
    ((copyGetAttachInfoRespM 3 mResp0).serviceRanks.data =
      mResp0.serviceRanks.data) ∧
    viewServiceRanks
        (heapWrite heap0 ((copyGetAttachInfoRespM 3 mResp0).serviceRanks.data.headD 0)
          { rank := 9, uri := "mutated" })
        mResp0 ≠
      viewServiceRanks heap0 mResp0 := by
  exact ⟨rfl, by decide⟩

/-- C2 amended: the copy preserves all contents; the MSRanks,
ServiceRanks and (non-nil) EnvVars slices of the copy sit in freshly
allocated backing arrays, so writes through any of the three copied slices
leave the master slices untouched, and the env-var arrays of two
sequential copies are mutually independent as well; but the ServiceRanks
elements are pointer values shared with the master, so the pointed-to
service-rank structs are common storage. -/
theorem C2_copy_independence_amended :
    ∀ (orig : MGetAttachInfoResp) (fresh : Nat),
      (∀ t ∈ respTags orig, t < fresh) →
      ((copyGetAttachInfoRespM fresh orig).msRanks.data = orig.msRanks.data ∧
       (copyGetAttachInfoRespM fresh orig).serviceRanks.data =
         orig.serviceRanks.data ∧
       (copyGetAttachInfoRespM fresh orig).clientNetHint.provider =
         orig.clientNetHint.provider ∧
       (copyGetAttachInfoRespM fresh orig).sys = orig.sys ∧
       (∀ s : MSlice String, orig.clientNetHint.envVars = some s →
         (copyGetAttachInfoRespM fresh orig).clientNetHint.envVars =
           some { tag := fresh + 2, data := s.data })) ∧
      (∀ (i : Nat) (v : Nat),
        writeMSlice (copyGetAttachInfoRespM fresh orig).msRanks.tag i v
          orig.msRanks = orig.msRanks) ∧
      (∀ (i : Nat) (v : Nat),
        writeMSlice (copyGetAttachInfoRespM fresh orig).serviceRanks.tag i v
          orig.serviceRanks = orig.serviceRanks) ∧
      (∀ (s : MSlice String) (i : Nat) (v : String),
        orig.clientNetHint.envVars = some s →
        writeMSlice (fresh + 2) i v s = s) ∧
      (∀ fresh2 : Nat, fresh + 3 ≤ fresh2 →
        ∀ (s : MSlice String) (i : Nat) (v : String),
          orig.clientNetHint.envVars = some s →
          writeMSlice (fresh + 2) i v { tag := fresh2 + 2, data := s.data } =
            { tag := fresh2 + 2, data := s.data }) := by
  intro orig fresh hfresh
  have hm : orig.msRanks.tag < fresh := hfresh _ (by simp [respTags])
  have hs : orig.serviceRanks.tag < fresh := hfresh _ (by simp [respTags])
  refine ⟨⟨rfl, rfl, rfl, rfl, ?_⟩, ?_, ?_, ?_, ?_⟩
  · intro s h
    simp [copyGetAttachInfoRespM, h]
  · intro i v
    exact writeMSlice_ne _ i v orig.msRanks
      (by show orig.msRanks.tag ≠ fresh; omega)
  · intro i v
    exact writeMSlice_ne _ i v orig.serviceRanks
      (by show orig.serviceRanks.tag ≠ fresh + 1; omega)
  · intro s i v h
    have hst : s.tag < fresh := hfresh _ (by simp [respTags, h])
    exact writeMSlice_ne _ i v s (by omega)
  · intro fresh2 hle s i v h
    exact writeMSlice_ne _ i v _ (by simp; omega)

/-- C2 witness: the copy of the concrete master has fresh backing arrays,
so a write through the copied ms-rank slice leaves the master slice
untouched. -/
theorem C2_witness :
    writeMSlice (copyGetAttachInfoRespM 3 mResp0).msRanks.tag 0 42 mResp0.msRanks =
      mResp0.msRanks :=
  (C2_copy_independence_amended mResp0 3 (by decide)).2.1 0 42

end DaosAgent
